import Mathlib

/-!
Shallow embedding of `src/movie_dags_pipeline.py`, an Airflow DAG that
fetches two fixed CSV datasets (movies, ratings), transforms each,
inner-joins them on `movie_id`, loads the merge into Postgres, renders one
bar chart, and deletes the intermediate CSV files.

Cell values of a dataframe are modelled by `Value` (integers, rationals in
place of floats, strings, and `null` for pandas NaN); a dataframe row is an
ordered association list of column name to value.  The filesystem is an
association list from paths (component lists) to files; the database table
is a list of rows of TEXT cells.
-/

namespace MoviePipeline

/-- A dataframe / CSV cell: int64, float (as an exact rational), string,
or missing (pandas NaN). -/
inductive Value where
  | int  : Int → Value
  | rat  : ℚ → Value
  | str  : String → Value
  | null : Value
deriving DecidableEq, Repr

/-- One dataframe row: ordered list of (column name, cell). -/
abbrev Row := List (String × Value)

/-- Column access `row[col]`: the first cell under that column name. -/
def getCol (r : Row) (k : String) : Option Value :=
  (r.find? (fun kv => kv.1 = k)).map (·.2)

/-- Column assignment `df[col] = v` on one row: overwrite the column in
place if it exists, otherwise append it as the last column (pandas
semantics of `df[k] = v`). -/
def setCol (r : Row) (k : String) (v : Value) : Row :=
  if r.any (fun kv => kv.1 = k) then
    r.map (fun kv => if kv.1 = k then (k, v) else kv)
  else
    r ++ [(k, v)]

/-- The numeric content of a cell, if any (`int64` and `float64` cells). -/
def Value.toRat? : Value → Option ℚ
  | .int n => some (n : ℚ)
  | .rat q => some q
  | _      => none

/-- `str(cell)` as executed by `tuple(map(str, row))` in `load_to_postgres`:
integers and strings print themselves; a float prints as
`<integer part>.<fractional digits>`; NaN prints as `nan`. -/
def Value.toStr : Value → String
  | .int n => toString n
  | .rat q =>
      -- decimal rendering with enough digits to be exact for the
      -- terminating decimals occurring in this pipeline
      let sign := if q.num < 0 then "-" else ""
      let n : ℕ := q.num.natAbs
      let ip : ℕ := n / q.den
      let fracNum : ℕ := n % q.den * 10 ^ 10 / q.den
      let rec digits (m : ℕ) (k : ℕ) : String :=
        match k with
        | 0 => ""
        | k + 1 =>
            let d := m / 10 ^ k
            toString d ++ digits (m - d * 10 ^ k) k
      let rec stripZeros (m : ℕ) (w : ℕ) : ℕ × ℕ :=
        match w with
        | 0 => (0, 0)
        | w' + 1 => if m % 10 = 0 then stripZeros (m / 10) w' else (m, w' + 1)
      let fw := stripZeros fracNum 10
      sign ++ toString ip ++ "." ++ (if fw.2 = 0 then "0" else digits fw.1 fw.2)
  | .str s => s
  | .null  => "nan"

/-! ### The fixed datasets (`fetch_movies`, `fetch_ratings`) -/

/-- The hard-coded five-row movies dataset of `fetch_movies`. -/
def moviesData : List Row :=
  [ [("movie_id", .int 1), ("title", .str "Inception"), ("genre", .str "Sci-Fi"), ("year", .int 2010)],
    [("movie_id", .int 2), ("title", .str "The Dark Knight"), ("genre", .str "Action"), ("year", .int 2008)],
    [("movie_id", .int 3), ("title", .str "Interstellar"), ("genre", .str "Sci-Fi"), ("year", .int 2014)],
    [("movie_id", .int 4), ("title", .str "Tenet"), ("genre", .str "Action"), ("year", .int 2020)],
    [("movie_id", .int 5), ("title", .str "Dunkirk"), ("genre", .str "War"), ("year", .int 2017)] ]

/-- The hard-coded five-row ratings dataset of `fetch_ratings`. -/
def ratingsData : List Row :=
  [ [("movie_id", .int 1), ("user_id", .int 101), ("rating", .rat 9)],
    [("movie_id", .int 2), ("user_id", .int 102), ("rating", .rat (mkRat 19 2))],
    [("movie_id", .int 3), ("user_id", .int 103), ("rating", .rat (mkRat 44 5))],
    [("movie_id", .int 4), ("user_id", .int 104), ("rating", .rat (mkRat 15 2))],
    [("movie_id", .int 5), ("user_id", .int 105), ("rating", .rat 8)] ]

/-! ### Transformations -/

/-- `(year // 10) * 10` on one cell: Python floor division on the numeric
dtypes; any non-numeric cell makes pandas raise, modelled as `none`. -/
def decadeOf : Value → Option Value
  | .int n => some (.int (Int.fdiv n 10 * 10))
  | .rat q => some (.rat ((⌊q / 10⌋ : ℤ) * 10))
  | _      => none

/-- `transform_movies` on the parsed dataframe: add a `decade` column
equal to `(year // 10) * 10`; fails when some row lacks a numeric
`year` cell. -/
def transform_movies : List Row → Option (List Row)
  | [] => some []
  | r :: t => do
    let y ← getCol r "year"
    let d ← decadeOf y
    let rest ← transform_movies t
    pure (setCol r "decade" d :: rest)

/-- `pd.cut(x, bins, labels)` for one scalar with default right-closed
intervals: the label of the first interval `(bins[i], bins[i+1]]`
containing `x`, `none` (NaN) when `x` falls in no interval. -/
def cut (x : ℚ) : List ℚ → List String → Option String
  | lo :: hi :: bs, l :: ls =>
      if lo < x ∧ x ≤ hi then some l else cut x (hi :: bs) ls
  | _, _ => none

/-- The concrete bucketing of `transform_ratings`:
`pd.cut(rating, bins=[0, 7, 8.5, 10], labels=["Low", "Medium", "High"])`. -/
def rating_category (r : ℚ) : Option String :=
  cut r [0, 7, mkRat 17 2, 10] ["Low", "Medium", "High"]

/-- `transform_ratings` on the parsed dataframe: add a `rating_category`
column holding the bucket label, or NaN when the rating is in no bucket;
fails when some row lacks a numeric `rating` cell. -/
def transform_ratings : List Row → Option (List Row)
  | [] => some []
  | r :: t => do
    let v ← getCol r "rating"
    let q ← v.toRat?
    let rest ← transform_ratings t
    pure (setCol r "rating_category"
      (match rating_category q with
       | some l => .str l
       | none   => .null) :: rest)

/-! ### Merge -/

/-- `pd.merge(left, right, on=key, how="inner")`: for each left row in
order, each right row in order with an equal (present) key, the left row
followed by the right row without its key column. -/
def innerMerge (key : String) (left right : List Row) : List Row :=
  left.flatMap (fun m =>
    (right.filter (fun r =>
        (getCol m key).isSome ∧ getCol r key = getCol m key)).map
      (fun r => m ++ r.filter (fun kv => kv.1 ≠ key)))

/-- `merge_datasets` on the two parsed dataframes. -/
def merge_datasets (movies ratings : List Row) : List Row :=
  innerMerge "movie_id" movies ratings

/-! ### Load to Postgres -/

def SCHEMA : String := "week9_movies"
def TARGET_TABLE : String := "movies_final"

/-- The `insert_sql` string built in `load_to_postgres` from the CSV
header. -/
def insert_sql (columns : List String) : String :=
  "INSERT INTO " ++ SCHEMA ++ "." ++ TARGET_TABLE ++ " ("
    ++ String.intercalate ", " columns ++ ") VALUES ("
    ++ String.intercalate ", " (columns.map fun _ => "%s") ++ ");"

/-- The Postgres state touched by the pipeline: whether schema
`week9_movies` exists, and the rows of `week9_movies.movies_final`
(`none` when the table does not exist; every cell is TEXT). -/
structure DBState where
  schemaExists : Bool
  table : Option (List (List String))
deriving DecidableEq, Repr

/-- Everything `load_to_postgres` does: the new database state, the
task's return value `len(df)`, and the list of executed INSERTs as
(statement, parameters `tuple(map(str, row))`). -/
structure LoadResult where
  db : DBState
  ret : ℕ
  inserts : List (String × List String)
deriving DecidableEq, Repr

/-- `load_to_postgres`: CREATE SCHEMA IF NOT EXISTS, CREATE TABLE IF NOT
EXISTS, then one INSERT per dataframe row with the stringified cells,
returning `len(df)`. -/
def load_to_postgres (db : DBState) (header : List String) (rows : List Row) : LoadResult :=
  let existing := db.table.getD []
  let newRows := rows.map (fun r => r.map (fun kv => kv.2.toStr))
  { db := { schemaExists := true, table := some (existing ++ newRows) },
    ret := rows.length,
    inserts := newRows.map (fun vals => (insert_sql header, vals)) }

/-! ### Analysis & visualization (the chart data) -/

/-- The genre cell of a row, when it is a string (pandas `groupby` drops
NaN keys). -/
def genreOf (r : Row) : Option String :=
  match getCol r "genre" with
  | some (.str s) => some s
  | _ => none

/-- The numeric ratings of the rows of one genre group (`.mean()`
skips non-numeric/NaN cells). -/
def groupRatings (rows : List Row) (g : String) : List ℚ :=
  (rows.filter (fun r => genreOf r = some g)).filterMap
    (fun r => (getCol r "rating").bind Value.toRat?)

/-- Arithmetic mean of a list of rationals. -/
def mean (l : List ℚ) : ℚ := l.sum / l.length

/-- Insertion into a ≤-sorted list of strings. -/
def insertStr (s : String) : List String → List String
  | [] => [s]
  | t :: ts => if t < s then t :: insertStr s ts else s :: t :: ts

/-- Insertion sort on strings (`groupby` sorts group keys). -/
def sortStrings : List String → List String
  | [] => []
  | s :: ss => insertStr s (sortStrings ss)

/-- `df.groupby("genre")["rating"].mean()`: one (genre, mean rating)
entry per distinct genre, keys sorted. -/
def genre_avg (rows : List Row) : List (String × ℚ) :=
  (sortStrings (rows.filterMap genreOf).dedup).map
    (fun g => (g, mean (groupRatings rows g)))

/-! ### Filesystem model and the tasks as filesystem transformers -/

/-- A filesystem path, as its components below the root. -/
abbrev Path := List String

/-- A file: a parsed CSV (list of rows) or the rendered PNG chart
(its plotted bars). -/
inductive File where
  | csv : List Row → File
  | png : List (String × ℚ) → File
deriving DecidableEq, Repr

/-- The filesystem: an association list from path to file. -/
abbrev FS := List (Path × File)

def fsRead (fs : FS) (p : Path) : Option File :=
  (fs.find? (fun e => e.1 = p)).map (·.2)

/-- Overwrite (or create) the file at `p`. -/
def fsWrite (fs : FS) (p : Path) (f : File) : FS :=
  (p, f) :: fs.filter (fun e => ¬ e.1 = p)

/-- `OUTPUT_DIR = "/opt/airflow/data/movies"`. -/
def outputDir : Path := ["opt", "airflow", "data", "movies"]

def moviesPath : Path := outputDir ++ ["movies.csv"]
def ratingsPath : Path := outputDir ++ ["ratings.csv"]
def moviesTransformedPath : Path := outputDir ++ ["movies_transformed.csv"]
def ratingsTransformedPath : Path := outputDir ++ ["ratings_transformed.csv"]
def mergedPath : Path := outputDir ++ ["merged_movies.csv"]
def visualsPngPath : Path := outputDir ++ ["visuals", "avg_rating_by_genre.png"]

/-- Read a CSV file (pd.read_csv fails on a missing/non-CSV file). -/
def readCsv (fs : FS) (p : Path) : Option (List Row) :=
  match fsRead fs p with
  | some (.csv rows) => some rows
  | _ => none

/-- `fetch_movies`: write the fixed dataset to `movies.csv` in `"w"`
mode. -/
def fetch_movies_task (fs : FS) : FS :=
  fsWrite fs moviesPath (.csv moviesData)

/-- `fetch_ratings`: write the fixed dataset to `ratings.csv` in `"w"`
mode. -/
def fetch_ratings_task (fs : FS) : FS :=
  fsWrite fs ratingsPath (.csv ratingsData)

/-- `transform_movies` as a filesystem step: read `movies.csv`,
transform, write `movies_transformed.csv`. -/
def transform_movies_task (fs : FS) : Option FS := do
  let rows ← readCsv fs moviesPath
  let rows' ← transform_movies rows
  pure (fsWrite fs moviesTransformedPath (.csv rows'))

/-- `transform_ratings` as a filesystem step: read `ratings.csv`,
transform, write `ratings_transformed.csv`. -/
def transform_ratings_task (fs : FS) : Option FS := do
  let rows ← readCsv fs ratingsPath
  let rows' ← transform_ratings rows
  pure (fsWrite fs ratingsTransformedPath (.csv rows'))

/-- The movies branch: `transform_movies(fetch_movies())`. -/
def movies_branch (fs : FS) : Option FS :=
  transform_movies_task (fetch_movies_task fs)

/-- The ratings branch: `transform_ratings(fetch_ratings())`. -/
def ratings_branch (fs : FS) : Option FS :=
  transform_ratings_task (fetch_ratings_task fs)

/-- `merge_datasets` as a filesystem step: read the two transformed
CSVs, inner-join, write `merged_movies.csv`. -/
def merge_task (fs : FS) : Option FS := do
  let m ← readCsv fs moviesTransformedPath
  let r ← readCsv fs ratingsTransformedPath
  pure (fsWrite fs mergedPath (.csv (merge_datasets m r)))

/-- `analyze_and_visualize` as a filesystem step: read the merged CSV,
save the bar chart of `genre_avg` to `visuals/avg_rating_by_genre.png`,
and return that path. -/
def analyze_and_visualize_task (fs : FS) : Option (FS × Path) := do
  let rows ← readCsv fs mergedPath
  pure (fsWrite fs visualsPngPath (.png (genre_avg rows)), visualsPngPath)

/-- Whether `p` is a direct entry of `folder` whose name ends in
`".csv"` — exactly the files `cleanup_folder` removes
(`os.listdir` then `file.endswith(".csv")`). -/
def isDirectChildCsv (folder : Path) (p : Path) : Bool :=
  p.length = folder.length + 1 ∧ p.take folder.length = folder
    ∧ ".csv".data.isSuffixOf (p.getLast?.getD "").data

/-- `cleanup_folder`: delete every direct `.csv` entry of the folder. -/
def cleanup_folder (folder : Path) (fs : FS) : FS :=
  fs.filter (fun e => ¬ isDirectChildCsv folder e.1)

/-! ### The DAG's task ordering -/

/-- The eight task instances of DAG `movie_pipeline`. -/
inductive Task where
  | fetch_movies | fetch_ratings
  | transform_movies | transform_ratings
  | merge_datasets | load_to_postgres
  | analyze_and_visualize | cleanup_folder
deriving DecidableEq, Repr

/-- The DAG's declared dependency edges: those induced by passing a
task's XCom output as an argument, and those declared with `>>`. -/
def dagEdges : List (Task × Task) :=
  [ (.fetch_movies, .transform_movies),
    (.fetch_ratings, .transform_ratings),
    (.transform_movies, .merge_datasets),
    (.transform_ratings, .merge_datasets),
    (.merge_datasets, .load_to_postgres),
    (.merge_datasets, .analyze_and_visualize),
    (.load_to_postgres, .analyze_and_visualize),
    (.analyze_and_visualize, .cleanup_folder) ]

/-- A schedule assigns each task a start position; it is valid when every
declared edge runs strictly earlier than its successor. -/
def validSchedule (order : Task → ℕ) : Prop :=
  ∀ e ∈ dagEdges, order e.1 < order e.2

/-- One cell as `to_csv` writes it: a missing value (NaN) becomes the
empty field. -/
def csvCell : Value → String
  | .null => ""
  | v => v.toStr

/-! ### Concrete transformed datasets -/

/-- `movies_transformed.csv` as produced from the fixed dataset. -/
def moviesTransformedData : List Row :=
  [ [("movie_id", .int 1), ("title", .str "Inception"), ("genre", .str "Sci-Fi"), ("year", .int 2010), ("decade", .int 2010)],
    [("movie_id", .int 2), ("title", .str "The Dark Knight"), ("genre", .str "Action"), ("year", .int 2008), ("decade", .int 2000)],
    [("movie_id", .int 3), ("title", .str "Interstellar"), ("genre", .str "Sci-Fi"), ("year", .int 2014), ("decade", .int 2010)],
    [("movie_id", .int 4), ("title", .str "Tenet"), ("genre", .str "Action"), ("year", .int 2020), ("decade", .int 2020)],
    [("movie_id", .int 5), ("title", .str "Dunkirk"), ("genre", .str "War"), ("year", .int 2017), ("decade", .int 2010)] ]

/-- `ratings_transformed.csv` as produced from the fixed dataset. -/
def ratingsTransformedData : List Row :=
  [ [("movie_id", .int 1), ("user_id", .int 101), ("rating", .rat 9), ("rating_category", .str "High")],
    [("movie_id", .int 2), ("user_id", .int 102), ("rating", .rat (mkRat 19 2)), ("rating_category", .str "High")],
    [("movie_id", .int 3), ("user_id", .int 103), ("rating", .rat (mkRat 44 5)), ("rating_category", .str "High")],
    [("movie_id", .int 4), ("user_id", .int 104), ("rating", .rat (mkRat 15 2)), ("rating_category", .str "Medium")],
    [("movie_id", .int 5), ("user_id", .int 105), ("rating", .rat 8), ("rating_category", .str "Medium")] ]

theorem transform_movies_data_eq :
    transform_movies moviesData = some moviesTransformedData := by rfl

theorem transform_ratings_data_eq :
    transform_ratings ratingsData = some ratingsTransformedData := by rfl

/-! ### Helper lemmas on the filesystem model -/

theorem find?_filter_of_imp {α : Type} (l : List α) (pr q : α → Bool)
    (h : ∀ a, pr a = true → q a = true) :
    (l.filter q).find? pr = l.find? pr := by
  induction l with
  | nil => rfl
  | cons a t ih =>
    by_cases ha : q a = true
    · rw [List.filter_cons_of_pos ha]
      by_cases hpa : pr a = true
      · rw [List.find?_cons_of_pos _ hpa, List.find?_cons_of_pos _ hpa]
      · rw [List.find?_cons_of_neg _ (by simp [hpa]),
            List.find?_cons_of_neg _ (by simp [hpa]), ih]
    · have hpa : ¬ pr a = true := fun hp => ha (h a hp)
      rw [List.filter_cons_of_neg (by simp [ha]),
          List.find?_cons_of_neg _ (by simp [hpa]), ih]

theorem fsRead_fsWrite_self (fs : FS) (p : Path) (f : File) :
    fsRead (fsWrite fs p f) p = some f := by
  simp [fsRead, fsWrite, List.find?_cons_of_pos]

theorem fsRead_fsWrite_ne (fs : FS) {p q : Path} (h : ¬ q = p) (f : File) :
    fsRead (fsWrite fs p f) q = fsRead fs q := by
  unfold fsRead fsWrite
  rw [List.find?_cons_of_neg _
        (by simp only [decide_eq_true_eq]; exact fun hq => h hq.symm),
      find?_filter_of_imp]
  intro a ha
  simp only [decide_eq_true_eq] at ha ⊢
  rw [ha]
  exact fun hq => h hq

theorem readCsv_fsWrite_self (fs : FS) (p : Path) (rows : List Row) :
    readCsv (fsWrite fs p (.csv rows)) p = some rows := by
  simp [readCsv, fsRead_fsWrite_self]

theorem readCsv_fsWrite_ne (fs : FS) {p q : Path} (h : ¬ q = p) (f : File) :
    readCsv (fsWrite fs p f) q = readCsv fs q := by
  simp [readCsv, fsRead_fsWrite_ne fs h]

theorem fsWrite_fsWrite_self (fs : FS) (p : Path) (f g : File) :
    fsWrite (fsWrite fs p f) p g = fsWrite fs p g := by
  simp [fsWrite, List.filter_filter]

theorem fsRead_cleanup_of_not_csv (folder : Path) (fs : FS) {p : Path}
    (h : isDirectChildCsv folder p = false) :
    fsRead (cleanup_folder folder fs) p = fsRead fs p := by
  unfold fsRead cleanup_folder
  rw [find?_filter_of_imp]
  intro a ha
  simp only [decide_eq_true_eq] at ha ⊢
  rw [ha, h]
  simp

/-! ### Helper lemmas on sorting -/

theorem mem_insertStr {a s : String} {l : List String} :
    a ∈ insertStr s l ↔ a = s ∨ a ∈ l := by
  induction l with
  | nil => simp [insertStr]
  | cons t ts ih =>
    by_cases h : t < s
    · simp only [insertStr, if_pos h, List.mem_cons, ih]
      tauto
    · simp only [insertStr, if_neg h, List.mem_cons]

theorem mem_sortStrings {a : String} {l : List String} :
    a ∈ sortStrings l ↔ a ∈ l := by
  induction l with
  | nil => simp [sortStrings]
  | cons s ss ih => simp [sortStrings, mem_insertStr, ih]

/-! ## The claims -/

/-- Claim C1: `merge_datasets` reads the two transformed CSV files and
produces exactly the inner equality join on `movie_id`: a row is in the
merged output iff it is a movies row joined with a ratings row sharing
its `movie_id`, carrying the columns of both inputs; on the fixed
five-movie / five-rating datasets the merged cardinality is five. -/
theorem claim_C1 :
    (∀ (movies ratings : List Row) (row : Row),
      row ∈ merge_datasets movies ratings ↔
        ∃ m ∈ movies, ∃ r ∈ ratings,
          (getCol m "movie_id").isSome ∧
          getCol r "movie_id" = getCol m "movie_id" ∧
          row = m ++ r.filter (fun kv => kv.1 ≠ "movie_id")) ∧
    (∀ (fs : FS) (m r : List Row),
      readCsv fs moviesTransformedPath = some m →
      readCsv fs ratingsTransformedPath = some r →
      merge_task fs =
        some (fsWrite fs mergedPath (.csv (merge_datasets m r)))) ∧
    ((transform_movies moviesData).bind (fun tm =>
        (transform_ratings ratingsData).map (fun tr =>
          (merge_datasets tm tr).length)) = some 5) := by
  refine ⟨?_, ?_, by decide⟩
  · intro movies ratings row
    simp only [merge_datasets, innerMerge, List.mem_flatMap, List.mem_map,
      List.mem_filter, decide_eq_true_eq, Bool.and_eq_true]
    constructor
    · rintro ⟨m, hm, r, ⟨hr, hcond⟩, rfl⟩
      exact ⟨m, hm, r, hr, hcond.1, hcond.2, rfl⟩
    · rintro ⟨m, hm, r, hr, hsome, heq, rfl⟩
      exact ⟨m, hm, r, ⟨hr, hsome, heq⟩, rfl⟩
  · intro fs m r h1 h2
    simp [merge_task, h1, h2]

/-- Claim C1 witness: `merge_task` on a filesystem holding the two
transformed CSVs writes their join to `merged_movies.csv`. -/
theorem claim_C1_witness :
    merge_task (fsWrite (fsWrite [] moviesTransformedPath
        (File.csv moviesTransformedData)) ratingsTransformedPath
        (File.csv ratingsTransformedData)) =
      some (fsWrite (fsWrite (fsWrite [] moviesTransformedPath
        (File.csv moviesTransformedData)) ratingsTransformedPath
        (File.csv ratingsTransformedData)) mergedPath
        (.csv (merge_datasets moviesTransformedData ratingsTransformedData))) :=
  claim_C1.2.1 _ _ _ (by rfl) (by rfl)

/-- Claim C2 counterexample: when the table already holds a row
(`CREATE TABLE IF NOT EXISTS` keeps it), the row count after loading a
one-row CSV is 2, not the CSV's row count 1 — the claimed unconditional
equality of table count and merged CSV count is false. -/
theorem claim_C2_counterexample :
    ¬ (((load_to_postgres ⟨true, some [["0"]]⟩ ["movie_id"]
          [[("movie_id", Value.int 1)]]).db.table.getD []).length =
        ([[("movie_id", Value.int 1)]] : List Row).length) := by decide

/-- Claim C2 (amended): `load_to_postgres` executes one INSERT statement
per CSV row with column names taken literally from the CSV header, and
returns the CSV row count; after the load the table row count equals the
prior table row count plus the CSV row count (hence equals the CSV row
count exactly when the table started empty). -/
theorem claim_C2_amended_thm (db : DBState) (header : List String)
    (rows : List Row) :
    (load_to_postgres db header rows).ret = rows.length ∧
    (load_to_postgres db header rows).inserts.map Prod.fst =
      List.replicate rows.length (insert_sql header) ∧
    (load_to_postgres db header rows).db.table =
      some (db.table.getD [] ++
        rows.map (fun r => r.map (fun kv => kv.2.toStr))) ∧
    ((load_to_postgres db header rows).db.table.getD []).length =
      (db.table.getD []).length + rows.length := by
  refine ⟨rfl, ?_, rfl, by simp [load_to_postgres]⟩
  simp only [load_to_postgres, List.map_map]
  induction rows with
  | nil => rfl
  | cons r t ih => simpa [List.replicate_succ] using ih

/-- Claim C9: `load_to_postgres` is append-only and not idempotent: it
creates schema and table with IF NOT EXISTS, appends the `str()` of each
cell into the TEXT table, leaves every prior row unchanged, adds exactly
`n` rows per run (`2n` after running twice), and the table count equals
the CSV count exactly when the table started empty. -/
theorem claim_C9 (db : DBState) (header : List String) (rows : List Row) :
    (load_to_postgres db header rows).db.schemaExists = true ∧
    ((load_to_postgres db header rows).db.table).isSome = true ∧
    (load_to_postgres db header rows).inserts.map Prod.snd =
      rows.map (fun r => r.map (fun kv => kv.2.toStr)) ∧
    (load_to_postgres db header rows).db.table =
      some (db.table.getD [] ++
        rows.map (fun r => r.map (fun kv => kv.2.toStr))) ∧
    ((load_to_postgres (load_to_postgres db header rows).db header
        rows).db.table.getD []).length =
      (db.table.getD []).length + 2 * rows.length ∧
    (((load_to_postgres db header rows).db.table.getD []).length =
        rows.length ↔ (db.table.getD []).length = 0) := by
  refine ⟨rfl, rfl, ?_, rfl, ?_, ?_⟩
  · simp [load_to_postgres, List.map_map]
  · simp [load_to_postgres]
    omega
  · simp [load_to_postgres]

/-- Claim C3: `cleanup_folder` removes exactly the entries directly
inside the output directory whose name ends in ".csv"; every other
entry — in particular the PNG chart under the `visuals`
subdirectory — is unchanged. -/
theorem claim_C3 :
    (∀ (folder : Path) (fs : FS) (e : Path × File),
      e ∈ cleanup_folder folder fs ↔
        e ∈ fs ∧ isDirectChildCsv folder e.1 = false) ∧
    (∀ fs : FS, fsRead (cleanup_folder outputDir fs) visualsPngPath =
        fsRead fs visualsPngPath) ∧
    (∀ (fs : FS) (p : Path), isDirectChildCsv outputDir p = false →
      fsRead (cleanup_folder outputDir fs) p = fsRead fs p) := by
  refine ⟨?_, fun fs => fsRead_cleanup_of_not_csv _ _ (by decide),
    fun fs p h => fsRead_cleanup_of_not_csv _ _ h⟩
  intro folder fs e
  simp [cleanup_folder, List.mem_filter, Bool.not_eq_true]

/-- Claim C3 witness: on a filesystem holding the merged CSV and the PNG
chart, the chart is still readable after cleanup. -/
theorem claim_C3_witness :
    fsRead (cleanup_folder outputDir
        [(mergedPath, File.csv []), (visualsPngPath, File.png [])])
      visualsPngPath =
    fsRead [(mergedPath, File.csv []), (visualsPngPath, File.png [])]
      visualsPngPath :=
  claim_C3.2.2 _ _ (by decide)

theorem setCol_of_not_mem (r : Row) (k : String) (v : Value)
    (h : ∀ kv ∈ r, ¬ kv.1 = k) : setCol r k v = r ++ [(k, v)] := by
  have ha : r.any (fun kv => kv.1 = k) = false := by
    simp only [List.any_eq_false, decide_eq_true_eq]
    exact h
  simp [setCol, ha]

/-- Claim C4: on an input whose every row has a numeric `year` cell
(int64 or float64) and no `decade` column, `transform_movies` succeeds
and each output row is the input row extended with one new trailing
column `decade` holding `(year // 10) * 10` (floor division, so the
floor of year/10 times 10 on floats), all original columns and values
unchanged. -/
theorem claim_C4 (rows : List Row)
    (hy : ∀ r ∈ rows, (∃ y : ℤ, getCol r "year" = some (.int y)) ∨
      (∃ q : ℚ, getCol r "year" = some (.rat q)))
    (hd : ∀ r ∈ rows, ∀ kv ∈ r, ¬ kv.1 = "decade") :
    ∃ out, transform_movies rows = some out ∧
      List.Forall₂ (fun r r' =>
        (∀ y : ℤ, getCol r "year" = some (.int y) →
          r' = r ++ [("decade", Value.int (y.fdiv 10 * 10))]) ∧
        (∀ q : ℚ, getCol r "year" = some (.rat q) →
          r' = r ++ [("decade", Value.rat ((⌊q / 10⌋ : ℤ) * 10))])) rows out := by
  induction rows with
  | nil => exact ⟨[], rfl, .nil⟩
  | cons r t ih =>
    obtain ⟨out, hout, hall⟩ :=
      ih (fun s hs => hy s (List.mem_cons_of_mem _ hs))
         (fun s hs => hd s (List.mem_cons_of_mem _ hs))
    rcases hy r (List.mem_cons_self r t) with ⟨y, hyr⟩ | ⟨q, hyr⟩
    · have hset := setCol_of_not_mem r "decade"
        (Value.int (y.fdiv 10 * 10)) (hd r (List.mem_cons_self r t))
      refine ⟨(r ++ [("decade", Value.int (y.fdiv 10 * 10))]) :: out, ?_,
        List.Forall₂.cons ⟨?_, ?_⟩ hall⟩
      · simp [transform_movies, hyr, decadeOf, hout, hset]
      · intro y' hy'
        rw [hyr] at hy'
        obtain rfl : y = y' := by
          injection hy' with h1
          injection h1
        rfl
      · intro q' hq'
        rw [hyr] at hq'
        simp at hq'
    · have hset := setCol_of_not_mem r "decade"
        (Value.rat ((⌊q / 10⌋ : ℤ) * 10)) (hd r (List.mem_cons_self r t))
      refine ⟨(r ++ [("decade", Value.rat ((⌊q / 10⌋ : ℤ) * 10))]) :: out, ?_,
        List.Forall₂.cons ⟨?_, ?_⟩ hall⟩
      · simp [transform_movies, hyr, decadeOf, hout, hset]
      · intro y' hy'
        rw [hyr] at hy'
        simp at hy'
      · intro q' hq'
        rw [hyr] at hq'
        obtain rfl : q = q' := by
          injection hq' with h1
          injection h1
        rfl

/-- Claim C4 witness: the fixed movies dataset satisfies both hypotheses
and transforms to the expected rows. -/
theorem claim_C4_witness :
    ∃ out, transform_movies moviesData = some out ∧
      List.Forall₂ (fun r r' =>
        (∀ y : ℤ, getCol r "year" = some (.int y) →
          r' = r ++ [("decade", Value.int (y.fdiv 10 * 10))]) ∧
        (∀ q : ℚ, getCol r "year" = some (.rat q) →
          r' = r ++ [("decade", Value.rat ((⌊q / 10⌋ : ℤ) * 10))]))
        moviesData out :=
  claim_C4 moviesData
    (by intro r hr; fin_cases hr <;> exact Or.inl ⟨_, rfl⟩)
    (by intro r hr; fin_cases hr <;> decide)

/-- Claim C5: in every schedule respecting the DAG's declared
dependencies, the stages run fetch → transform → merge → load →
visualize → cleanup: merge starts only after both transforms, and
cleanup only after both load_to_postgres and analyze_and_visualize. -/
theorem claim_C5 (order : Task → ℕ) (h : validSchedule order) :
    order .fetch_movies < order .transform_movies ∧
    order .fetch_ratings < order .transform_ratings ∧
    order .transform_movies < order .merge_datasets ∧
    order .transform_ratings < order .merge_datasets ∧
    order .merge_datasets < order .load_to_postgres ∧
    order .load_to_postgres < order .analyze_and_visualize ∧
    order .analyze_and_visualize < order .cleanup_folder ∧
    order .load_to_postgres < order .cleanup_folder ∧
    order .merge_datasets < order .cleanup_folder := by
  have h1 : order .fetch_movies < order .transform_movies :=
    h (.fetch_movies, .transform_movies) (by simp [dagEdges])
  have h2 : order .fetch_ratings < order .transform_ratings :=
    h (.fetch_ratings, .transform_ratings) (by simp [dagEdges])
  have h3 : order .transform_movies < order .merge_datasets :=
    h (.transform_movies, .merge_datasets) (by simp [dagEdges])
  have h4 : order .transform_ratings < order .merge_datasets :=
    h (.transform_ratings, .merge_datasets) (by simp [dagEdges])
  have h5 : order .merge_datasets < order .load_to_postgres :=
    h (.merge_datasets, .load_to_postgres) (by simp [dagEdges])
  have h6 : order .load_to_postgres < order .analyze_and_visualize :=
    h (.load_to_postgres, .analyze_and_visualize) (by simp [dagEdges])
  have h7 : order .analyze_and_visualize < order .cleanup_folder :=
    h (.analyze_and_visualize, .cleanup_folder) (by simp [dagEdges])
  exact ⟨h1, h2, h3, h4, h5, h6, h7, by omega, by omega⟩

/-- The sequential 0..7 schedule of the eight task instances. -/
def seqOrder : Task → ℕ
  | .fetch_movies => 0
  | .fetch_ratings => 1
  | .transform_movies => 2
  | .transform_ratings => 3
  | .merge_datasets => 4
  | .load_to_postgres => 5
  | .analyze_and_visualize => 6
  | .cleanup_folder => 7

/-- Claim C5 witness: the sequential schedule 0..7 is valid, and under
it fetch_movies runs before transform_movies. -/
theorem claim_C5_witness :
    seqOrder .fetch_movies < seqOrder .transform_movies :=
  (claim_C5 seqOrder (by intro e he; fin_cases he <;> decide)).1

theorem movies_branch_eq (fs : FS) :
    movies_branch fs =
      some (fsWrite (fsWrite fs moviesPath (.csv moviesData))
        moviesTransformedPath (.csv moviesTransformedData)) := by
  simp [movies_branch, transform_movies_task, fetch_movies_task,
    readCsv_fsWrite_self, transform_movies_data_eq]

theorem ratings_branch_eq (fs : FS) :
    ratings_branch fs =
      some (fsWrite (fsWrite fs ratingsPath (.csv ratingsData))
        ratingsTransformedPath (.csv ratingsTransformedData)) := by
  simp [ratings_branch, transform_ratings_task, fetch_ratings_task,
    readCsv_fsWrite_self, transform_ratings_data_eq]

/-- Claim C6: the movies branch (fetch then transform) and the ratings
branch are independent: each touches only its own files, and running
the two branches in either order yields the same final file contents. -/
theorem claim_C6 (fs : FS) :
    ∃ fs₁ fs₂,
      (movies_branch fs).bind ratings_branch = some fs₁ ∧
      (ratings_branch fs).bind movies_branch = some fs₂ ∧
      ∀ p : Path, fsRead fs₁ p = fsRead fs₂ p := by
  refine ⟨fsWrite (fsWrite (fsWrite (fsWrite fs moviesPath (.csv moviesData))
      moviesTransformedPath (.csv moviesTransformedData)) ratingsPath
      (.csv ratingsData)) ratingsTransformedPath (.csv ratingsTransformedData),
    fsWrite (fsWrite (fsWrite (fsWrite fs ratingsPath (.csv ratingsData))
      ratingsTransformedPath (.csv ratingsTransformedData)) moviesPath
      (.csv moviesData)) moviesTransformedPath (.csv moviesTransformedData),
    ?_, ?_, ?_⟩
  · rw [movies_branch_eq]
    simpa using ratings_branch_eq _
  · rw [ratings_branch_eq]
    simpa using movies_branch_eq _
  · intro p
    by_cases h1 : p = moviesPath
    · subst h1
      simp [fsRead_fsWrite_self,
        fsRead_fsWrite_ne _ (show ¬ moviesPath = ratingsTransformedPath by decide),
        fsRead_fsWrite_ne _ (show ¬ moviesPath = ratingsPath by decide),
        fsRead_fsWrite_ne _ (show ¬ moviesPath = moviesTransformedPath by decide)]
    by_cases h2 : p = moviesTransformedPath
    · subst h2
      simp [fsRead_fsWrite_self,
        fsRead_fsWrite_ne _ (show ¬ moviesTransformedPath = ratingsTransformedPath by decide),
        fsRead_fsWrite_ne _ (show ¬ moviesTransformedPath = ratingsPath by decide)]
    by_cases h3 : p = ratingsPath
    · subst h3
      simp [fsRead_fsWrite_self,
        fsRead_fsWrite_ne _ (show ¬ ratingsPath = ratingsTransformedPath by decide),
        fsRead_fsWrite_ne _ (show ¬ ratingsPath = moviesTransformedPath by decide),
        fsRead_fsWrite_ne _ (show ¬ ratingsPath = moviesPath by decide)]
    by_cases h4 : p = ratingsTransformedPath
    · subst h4
      simp [fsRead_fsWrite_self,
        fsRead_fsWrite_ne _ (show ¬ ratingsTransformedPath = moviesTransformedPath by decide),
        fsRead_fsWrite_ne _ (show ¬ ratingsTransformedPath = moviesPath by decide)]
    simp only [fsRead_fsWrite_ne _ h1, fsRead_fsWrite_ne _ h2,
      fsRead_fsWrite_ne _ h3, fsRead_fsWrite_ne _ h4]

/-- Claim C7: `analyze_and_visualize` writes exactly one artifact, the
PNG bar chart at `visuals/avg_rating_by_genre.png` (every other path is
untouched), whose plotted value for each genre is the arithmetic mean of
the `rating` column of the merged CSV restricted to that genre, with one
bar per genre occurring in the data; it returns the chart's path. -/
theorem claim_C7 (fs : FS) (rows : List Row)
    (h : readCsv fs mergedPath = some rows) :
    analyze_and_visualize_task fs =
      some (fsWrite fs visualsPngPath (.png (genre_avg rows)),
        visualsPngPath) ∧
    (∀ p : Path, ¬ p = visualsPngPath →
      fsRead (fsWrite fs visualsPngPath (.png (genre_avg rows))) p =
        fsRead fs p) ∧
    (∀ g q, (g, q) ∈ genre_avg rows →
      q = mean ((rows.filter (fun r => genreOf r = some g)).filterMap
            (fun r => (getCol r "rating").bind Value.toRat?))) ∧
    (∀ g q, (g, q) ∈ genre_avg rows → ∃ r ∈ rows, genreOf r = some g) ∧
    (∀ r ∈ rows, ∀ g, genreOf r = some g →
      ∃ q, (g, q) ∈ genre_avg rows) := by
  refine ⟨by simp [analyze_and_visualize_task, h],
    fun p hp => fsRead_fsWrite_ne _ hp _, ?_, ?_, ?_⟩
  · intro g q hgq
    simp only [genre_avg, List.mem_map] at hgq
    obtain ⟨g', hg', heq⟩ := hgq
    injection heq with h1 h2
    subst h1
    exact h2.symm
  · intro g q hgq
    simp only [genre_avg, List.mem_map] at hgq
    obtain ⟨g', hg', heq⟩ := hgq
    injection heq with h1 h2
    subst h1
    rw [mem_sortStrings, List.mem_dedup, List.mem_filterMap] at hg'
    exact hg'
  · intro r hr g hg
    refine ⟨mean (groupRatings rows g), ?_⟩
    simp only [genre_avg, List.mem_map]
    refine ⟨g, ?_, rfl⟩
    rw [mem_sortStrings, List.mem_dedup, List.mem_filterMap]
    exact ⟨r, hr, hg⟩

/-- The merged dataset of the fixed pipeline run. -/
def mergedData : List Row :=
  merge_datasets moviesTransformedData ratingsTransformedData

/-- Claim C7 witness: on a filesystem holding the concrete merged CSV,
the task writes the chart of `genre_avg` to the visuals path and
returns that path. -/
theorem claim_C7_witness :
    analyze_and_visualize_task (fsWrite [] mergedPath (.csv mergedData)) =
      some (fsWrite (fsWrite [] mergedPath (.csv mergedData))
        visualsPngPath (.png (genre_avg mergedData)), visualsPngPath) :=
  (claim_C7 (fsWrite [] mergedPath (.csv mergedData)) mergedData
    (by rfl)).1

/-- Claim C8: `transform_ratings` buckets by right-closed intervals:
`0 < r ≤ 7` is Low, `7 < r ≤ 8.5` is Medium, `8.5 < r ≤ 10` is High; a
rating at or below 0, or above 10, falls in no bucket, is stored as NaN
and written to the CSV as an empty value, with no error raised. -/
theorem claim_C8 (r : ℚ) :
    (rating_category r = some "Low" ↔ 0 < r ∧ r ≤ 7) ∧
    (rating_category r = some "Medium" ↔ 7 < r ∧ r ≤ mkRat 17 2) ∧
    (rating_category r = some "High" ↔ mkRat 17 2 < r ∧ r ≤ 10) ∧
    (rating_category r = none ↔ r ≤ 0 ∨ 10 < r) ∧
    (∀ row : Row, getCol row "rating" = some (.rat r) →
      transform_ratings [row] = some [setCol row "rating_category"
        (match rating_category r with
         | some l => Value.str l
         | none => Value.null)]) ∧
    csvCell Value.null = "" := by
  have hm : (17 : ℚ) / 2 = mkRat 17 2 := by
    rw [Rat.mkRat_eq_div]
    norm_num
  have h7m : (7 : ℚ) < mkRat 17 2 := by
    rw [← hm]
    norm_num
  have hm10 : (mkRat 17 2 : ℚ) < 10 := by
    rw [← hm]
    norm_num
  have hrc : rating_category r =
      (if 0 < r ∧ r ≤ 7 then some "Low"
       else if 7 < r ∧ r ≤ mkRat 17 2 then some "Medium"
       else if mkRat 17 2 < r ∧ r ≤ 10 then some "High"
       else none) := rfl
  have htrans : ∀ row : Row, getCol row "rating" = some (.rat r) →
      transform_ratings [row] = some [setCol row "rating_category"
        (match rating_category r with
         | some l => Value.str l
         | none => Value.null)] := by
    intro row hrow
    simp [transform_ratings, hrow, Value.toRat?]
  by_cases hA : 0 < r ∧ r ≤ 7
  · have hval : rating_category r = some "Low" := by rw [hrc, if_pos hA]
    refine ⟨by simp [hval, hA], ?_, ?_, ?_, htrans, rfl⟩
    · simp only [hval, Option.some.injEq]
      constructor
      · intro h
        exact absurd h (by decide)
      · rintro ⟨h1, _⟩
        exact absurd h1 (by linarith [hA.2])
    · simp only [hval, Option.some.injEq]
      constructor
      · intro h
        exact absurd h (by decide)
      · rintro ⟨h1, _⟩
        exact absurd h1 (by linarith [hA.2])
    · simp only [hval]
      constructor
      · intro h
        exact absurd h (by simp)
      · rintro (h1 | h1)
        · exact absurd h1 (by linarith [hA.1])
        · exact absurd h1 (by linarith [hA.2])
  · by_cases hB : 7 < r ∧ r ≤ mkRat 17 2
    · have hval : rating_category r = some "Medium" := by
        rw [hrc, if_neg hA, if_pos hB]
      refine ⟨?_, by simp [hval, hB], ?_, ?_, htrans, rfl⟩
      · simp only [hval, Option.some.injEq]
        constructor
        · intro h
          exact absurd h (by decide)
        · rintro ⟨_, h2⟩
          exact absurd h2 (by linarith [hB.1])
      · simp only [hval, Option.some.injEq]
        constructor
        · intro h
          exact absurd h (by decide)
        · rintro ⟨h1, _⟩
          exact absurd h1 (by linarith [hB.2])
      · simp only [hval]
        constructor
        · intro h
          exact absurd h (by simp)
        · rintro (h1 | h1)
          · exact absurd h1 (by linarith [hB.1])
          · exact absurd h1 (by linarith [hB.2, hm10])
    · by_cases hC : mkRat 17 2 < r ∧ r ≤ 10
      · have hval : rating_category r = some "High" := by
          rw [hrc, if_neg hA, if_neg hB, if_pos hC]
        refine ⟨?_, ?_, by simp [hval, hC], ?_, htrans, rfl⟩
        · simp only [hval, Option.some.injEq]
          constructor
          · intro h
            exact absurd h (by decide)
          · rintro ⟨_, h2⟩
            exact absurd h2 (by linarith [hC.1, h7m])
        · simp only [hval, Option.some.injEq]
          constructor
          · intro h
            exact absurd h (by decide)
          · rintro ⟨_, h2⟩
            exact absurd h2 (by linarith [hC.1])
        · simp only [hval]
          constructor
          · intro h
            exact absurd h (by simp)
          · rintro (h1 | h1)
            · exact absurd h1 (by linarith [hC.1, h7m])
            · exact absurd h1 (by linarith [hC.2])
      · have hval : rating_category r = none := by
          rw [hrc, if_neg hA, if_neg hB, if_neg hC]
        push_neg at hA hB hC
        refine ⟨by simp [hval]; exact hA, by simp [hval]; exact hB,
          by simp [hval]; exact hC, ?_, htrans, rfl⟩
        simp only [hval, true_iff]
        rcases le_or_lt r 0 with h0 | h0
        · exact Or.inl h0
        · exact Or.inr (hC (hB (hA h0)))

/-- Claim C8 witness: rating 11 falls in no bucket; its category cell is
NaN and the transform still succeeds. -/
theorem claim_C8_witness :
    rating_category 11 = none ∧
    transform_ratings [[("rating", Value.rat 11)]] =
      some [[("rating", Value.rat 11), ("rating_category", Value.null)]] := by
  have h := claim_C8 11
  have hnone : rating_category 11 = none := (h.2.2.2.1).mpr (by decide)
  have ht := h.2.2.2.2.1 [("rating", Value.rat 11)] (by rfl)
  rw [hnone] at ht
  exact ⟨hnone, by simpa [setCol] using ht⟩

/-- Claim C10: the fetch tasks are deterministic and idempotent: each
writes its fixed five-row dataset to its CSV path in overwrite mode, so
the content there is the same on every run and independent of the prior
filesystem, and fetching twice equals fetching once. -/
theorem claim_C10 (fs g : FS) :
    readCsv (fetch_movies_task fs) moviesPath = some moviesData ∧
    readCsv (fetch_ratings_task fs) ratingsPath = some ratingsData ∧
    fetch_movies_task (fetch_movies_task fs) = fetch_movies_task fs ∧
    fetch_ratings_task (fetch_ratings_task fs) = fetch_ratings_task fs ∧
    fsRead (fetch_movies_task fs) moviesPath =
      fsRead (fetch_movies_task g) moviesPath ∧
    fsRead (fetch_ratings_task fs) ratingsPath =
      fsRead (fetch_ratings_task g) ratingsPath :=
  ⟨readCsv_fsWrite_self fs moviesPath moviesData,
   readCsv_fsWrite_self fs ratingsPath ratingsData,
   fsWrite_fsWrite_self fs moviesPath _ _,
   fsWrite_fsWrite_self fs ratingsPath _ _,
   (fsRead_fsWrite_self fs moviesPath _).trans
     (fsRead_fsWrite_self g moviesPath _).symm,
   (fsRead_fsWrite_self fs ratingsPath _).trans
     (fsRead_fsWrite_self g ratingsPath _).symm⟩

end MoviePipeline
